import Mathlib

/-!
Verification development for the flood-simulation repository
(src/banjir_new3.py and src/uji_coba_banjir_TIF.py).

The numeric computations of the two scripts are embedded shallowly over ℚ:
2D numpy arrays become `List (List ℚ)` (row-major), NaN-carrying arrays
become `List (List (Option ℚ))` (`none` models NaN), and float arithmetic
becomes exact rational arithmetic.
-/

namespace FloodSim

/-- A 2D lookup `a[r][c]`, mirroring numpy 2D indexing. -/
def cell? {α : Type} (g : List (List α)) (r c : ℕ) : Option α :=
  g[r]?.bind (fun row => row[c]?)

/-- The grid is rectangular with every row of length `C`
(numpy arrays are always rectangular). -/
def Rect (g : List (List ℚ)) (C : ℕ) : Prop :=
  ∀ row ∈ g, row.length = C

instance (g : List (List ℚ)) (C : ℕ) : Decidable (Rect g C) := by
  unfold Rect; infer_instance

/-- Embeds `np.min(elevation)`: global minimum of the grid.  The scripts only call
it on a valid non-empty grid; the default 0 is never reached there. -/
def npMin (g : List (List ℚ)) : ℚ :=
  (g.flatten.min?).getD 0

/-- Embeds `rainfall_intensity = rain_mm_per_hour / 3600 / 1000` (mm/h → m/s),
from src/banjir_new3.py line 30 and src/uji_coba_banjir_TIF.py line 50. -/
def rainfall_intensity (rain_mm_per_hour : ℚ) : ℚ :=
  rain_mm_per_hour / 3600 / 1000

/-- Embeds `duration = duration_minutes * 60` (minutes → seconds). -/
def duration (duration_minutes : ℚ) : ℚ :=
  duration_minutes * 60

/-- Embeds `inflow_volume = rainfall_intensity * duration`: total rainfall depth (m). -/
def inflow_volume (rain_mm_per_hour duration_minutes : ℚ) : ℚ :=
  rainfall_intensity rain_mm_per_hour * duration duration_minutes

/-- Embeds `volume_t = inflow_volume * (t / steps)`: the inflow depth used for
animation frame `t` of `steps` (src/banjir_new3.py line 61). -/
def volume_t (rain_mm_per_hour duration_minutes : ℚ) (t steps : ℚ) : ℚ :=
  inflow_volume rain_mm_per_hour duration_minutes * (t / steps)

/-- Embeds `water_level = np.maximum(0, inflow - elevation + np.min(elevation))`,
from src/banjir_new3.py line 34 / line 62 and src/uji_coba_banjir_TIF.py
line 55 / line 82, with the inflow depth passed as a scalar. -/
def water_level (inflow : ℚ) (g : List (List ℚ)) : List (List ℚ) :=
  g.map (fun row => row.map (fun e => max 0 (inflow - e + npMin g)))

/-- Embeds `np.argmax` over a flattened (row-major) array: numpy documents that in
case of ties the index of the first occurrence of the maximum is returned. -/
def argmaxFlat (l : List ℚ) : ℕ :=
  l.findIdx (fun x => decide (l.max? = some x))

/-- Embeds `max_pos = np.unravel_index(np.argmax(water_level), water_level.shape)`:
for a 2D C-ordered array with `C` columns the flat index `k` unravels to
`(k / C, k % C)`. -/
def max_pos (wl : List (List ℚ)) (C : ℕ) : ℕ × ℕ :=
  let k := argmaxFlat wl.flatten
  (k / C, k % C)

/-- Embeds `max_water = water_level[max_pos]` (src/banjir_new3.py line 37). -/
def max_water (wl : List (List ℚ)) (C : ℕ) : ℚ :=
  let p := max_pos wl C
  (cell? wl p.1 p.2).getD 0

/-- The display-mode selector of src/uji_coba_banjir_TIF.py line 18
("Ringan" = light, "Detail" = detailed). -/
inductive Mode : Type
  | Ringan : Mode
  | Detail : Mode

/-- Embeds `MAX_RES = 150 if mode == "Ringan" else 300` (line 21). -/
def MAX_RES : Mode → ℕ
  | Mode.Ringan => 150
  | Mode.Detail => 300

/-- Embeds `ANIM_STEPS = 10 if mode == "Ringan" else 20` (line 22). -/
def ANIM_STEPS : Mode → ℕ
  | Mode.Ringan => 10
  | Mode.Detail => 20

/-- Embeds `scale = min(MAX_RES / elevation.shape[0], MAX_RES / elevation.shape[1])`
(line 41), with shape[0] = rows and shape[1] = cols. -/
def scale (maxres rows cols : ℕ) : ℚ :=
  min ((maxres : ℚ) / rows) ((maxres : ℚ) / cols)

/-- OpenCV's `cvRound`: round to nearest integer, halves to even, as used by
`cv2.resize` to turn `fx * cols` and `fy * rows` into the output size. -/
def cvRound (q : ℚ) : ℤ :=
  if Int.fract q < 1 / 2 then ⌊q⌋
  else if 1 / 2 < Int.fract q then ⌊q⌋ + 1
  else if ⌊q⌋ % 2 = 0 then ⌊q⌋ else ⌊q⌋ + 1

/-- Output shape (rows, cols) of
`cv2.resize(elevation, (0, 0), fx=scale, fy=scale, ...)` (line 42):
OpenCV computes `dsize = (cvRound(fx * cols), cvRound(fy * rows))`. -/
def resizeDims (mode : Mode) (rows cols : ℕ) : ℤ × ℤ :=
  let s := scale (MAX_RES mode) rows cols
  (cvRound (s * rows), cvRound (s * cols))

/-- Embeds `np.linspace(start, stop, num)` with the default endpoint=True:
`num` evenly spaced samples from `start` to `stop`; numpy returns the
single sample `[start]` when `num = 1` and `[]` when `num = 0`. -/
def linspace (start stop : ℚ) (num : ℕ) : List ℚ :=
  if num ≤ 1 then List.replicate num start
  else (List.range num).map
    (fun i : ℕ => start + (i : ℚ) * ((stop - start) / ((num : ℚ) - 1)))

/-- First output of `np.meshgrid(x, y)`: shape (len y, len x), row `r` is a
copy of `x`. -/
def meshX (x : List ℚ) (y : List ℚ) : List (List ℚ) :=
  y.map (fun _ => x)

/-- Second output of `np.meshgrid(x, y)`: shape (len y, len x), row `r` is
`y[r]` repeated. -/
def meshY (x : List ℚ) (y : List ℚ) : List (List ℚ) :=
  y.map (fun v => List.replicate x.length v)

/-- Embeds `np.nanmin(elevation)` on a grid whose NaN cells are modelled by
`none`: the minimum over the non-NaN entries (none if all entries are NaN). -/
def nanmin (g : List (List (Option ℚ))) : Option ℚ :=
  (g.flatten.filterMap id).min?

/-- Embeds `np.nan_to_num(elevation, nan=np.nanmin(elevation))`
(src/banjir_new3.py line 20, src/uji_coba_banjir_TIF.py line 29):
every NaN cell is replaced by the nanmin of the grid, other cells are kept. -/
def nan_to_num (g : List (List (Option ℚ))) : List (List (Option ℚ)) :=
  g.map (List.map (fun o => match o with
    | none => nanmin g
    | some v => some v))

end FloodSim

namespace FloodSim

/- ### Basic lemmas about the embedding -/

lemma cell?_water_level (inflow : ℚ) (g : List (List ℚ)) (r c : ℕ) :
    cell? (water_level inflow g) r c
      = (cell? g r c).map (fun e => max 0 (inflow - e + npMin g)) := by
  unfold cell? water_level
  rw [List.getElem?_map]
  cases g[r]? with
  | none => rfl
  | some row =>
    simp [List.getElem?_map]

lemma inflow_volume_eq (rain dur : ℚ) :
    inflow_volume rain dur = rain / 3600 / 1000 * (dur * 60) := by
  unfold inflow_volume rainfall_intensity duration
  ring

/-- Membership in the joined water grid comes from membership in the joined
elevation grid. -/
lemma mem_flatten_water_level {inflow : ℚ} {g : List (List ℚ)} {w : ℚ}
    (h : w ∈ (water_level inflow g).flatten) :
    ∃ e ∈ g.flatten, w = max 0 (inflow - e + npMin g) := by
  rcases List.mem_flatten.mp h with ⟨row, hrow, hw⟩
  rcases List.mem_map.mp hrow with ⟨row0, hrow0, rfl⟩
  rcases List.mem_map.mp hw with ⟨e, he, rfl⟩
  exact ⟨e, List.mem_flatten.mpr ⟨row0, hrow0, he⟩, rfl⟩

lemma npMin_le {g : List (List ℚ)} {e : ℚ} (he : e ∈ g.flatten) :
    npMin g ≤ e := by
  unfold npMin
  cases hmin : g.flatten.min? with
  | none =>
    rw [List.min?_eq_none_iff] at hmin
    rw [hmin] at he
    cases he
  | some m =>
    have := (List.le_min?_iff (by intro a b c; exact le_min_iff) hmin (a := m)).mp
      le_rfl e he
    simpa using this

lemma npMin_mem {g : List (List ℚ)} (hne : g.flatten ≠ []) :
    npMin g ∈ g.flatten := by
  unfold npMin
  cases hmin : g.flatten.min? with
  | none =>
    rw [List.min?_eq_none_iff] at hmin
    exact absurd hmin hne
  | some m =>
    simpa using List.min?_mem (fun a b => min_choice a b) hmin

lemma cell?_mem {α : Type} {g : List (List α)} {r c : ℕ} {e : α}
    (h : cell? g r c = some e) : e ∈ g.flatten := by
  unfold cell? at h
  cases hr : g[r]? with
  | none => rw [hr] at h; cases h
  | some row =>
    rw [hr] at h
    exact List.mem_flatten.mpr ⟨row, List.getElem?_mem hr, List.getElem?_mem h⟩

/-- Row-major flattening: for a rectangular grid with `C` columns, the flat
index `r * C + c` addresses cell `(r, c)`, as in a C-ordered numpy array. -/
lemma flatten_getElem? (g : List (List ℚ)) (C : ℕ) (hrect : Rect g C)
    (r c : ℕ) (hc : c < C) :
    g.flatten[r * C + c]? = cell? g r c := by
  induction g generalizing r with
  | nil => simp [cell?]
  | cons row rest ih =>
    have hrow : row.length = C := hrect row (by simp)
    have hrect' : Rect rest C := fun rr hrr => hrect rr (by simp [hrr])
    cases r with
    | zero =>
      simp only [List.flatten_cons, Nat.zero_mul, Nat.zero_add]
      rw [List.getElem?_append_left (by omega)]
      simp [cell?]
    | succ r' =>
      simp only [List.flatten_cons]
      have harith : (r' + 1) * C + c = row.length + (r' * C + c) := by
        rw [hrow]; ring
      rw [harith, List.getElem?_append_right (by omega)]
      have : row.length + (r' * C + c) - row.length = r' * C + c := by omega
      rw [this, ih hrect']
      simp [cell?]

lemma rect_water_level {g : List (List ℚ)} {C : ℕ} (hrect : Rect g C)
    (inflow : ℚ) : Rect (water_level inflow g) C := by
  intro row hrow
  rcases List.mem_map.mp hrow with ⟨row0, hrow0, rfl⟩
  simpa using hrect row0 hrow0

lemma mem_flatten_water_level_of_mem (inflow : ℚ) {g : List (List ℚ)} {e : ℚ}
    (he : e ∈ g.flatten) :
    max 0 (inflow - e + npMin g) ∈ (water_level inflow g).flatten := by
  rcases List.mem_flatten.mp he with ⟨row, hrow, hmem⟩
  refine List.mem_flatten.mpr ⟨row.map (fun e => max 0 (inflow - e + npMin g)), ?_, ?_⟩
  · exact List.mem_map.mpr ⟨row, hrow, rfl⟩
  · exact List.mem_map.mpr ⟨e, hmem, rfl⟩

/-- If `v` belongs to `l` and bounds every element, then `l.max? = some v`. -/
lemma max?_eq_some_of_ub {l : List ℚ} {v : ℚ} (hmem : v ∈ l)
    (hub : ∀ w ∈ l, w ≤ v) : l.max? = some v := by
  have anti : Std.Antisymm ((· : ℚ) ≤ ·) := ⟨fun h1 h2 => le_antisymm h1 h2⟩
  exact (List.max?_eq_some_iff (fun a => le_refl a) (fun a b => max_choice a b)
    (fun a b c => max_le_iff)).mpr ⟨hmem, hub⟩

/-- The flattened water grid is nonempty whenever the elevation grid is a
nonempty rectangle with at least one column. -/
lemma flatten_water_level_ne_nil {g : List (List ℚ)} {C : ℕ}
    (hrect : Rect g C) (hC : 0 < C) (hg : g ≠ []) (inflow : ℚ) :
    (water_level inflow g).flatten ≠ [] := by
  cases g with
  | nil => exact absurd rfl hg
  | cons row rest =>
    have hrow : row.length = C := hrect row (by simp)
    cases row with
    | nil => simp at hrow; omega
    | cons a arow =>
      intro hcontra
      have : (max 0 (inflow - a + npMin ((a :: arow) :: rest))) ∈
          (water_level inflow ((a :: arow) :: rest)).flatten := by
        apply mem_flatten_water_level_of_mem
        exact List.mem_flatten.mpr ⟨a :: arow, by simp, by simp⟩
      rw [hcontra] at this
      cases this

lemma flatten_ne_nil {g : List (List ℚ)} {C : ℕ}
    (hrect : Rect g C) (hC : 0 < C) (hg : g ≠ []) : g.flatten ≠ [] := by
  cases g with
  | nil => exact absurd rfl hg
  | cons row rest =>
    have hrow : row.length = C := hrect row (by simp)
    cases row with
    | nil => simp at hrow; omega
    | cons a arow => simp

end FloodSim

namespace FloodSim

/- ### Claim theorems -/

/-- C1: for every elevation grid, rainfall intensity `rain` (mm/h), duration
`dur` (minutes) and time fraction `t`, the computed water level at every
in-bounds cell equals `max 0 (inflowDepth - E[cell] + min E)` where
`inflowDepth = (rain / 3600 / 1000) * (dur * 60) * t` and `min E` is the
global minimum of the grid. -/
theorem C1_water_level_formula (rain dur t : ℚ) (g : List (List ℚ)) (r c : ℕ)
    (e : ℚ) (he : cell? g r c = some e) :
    cell? (water_level (inflow_volume rain dur * t) g) r c
      = some (max 0 (rain / 3600 / 1000 * (dur * 60) * t - e + npMin g)) := by
  rw [cell?_water_level, he]
  have : inflow_volume rain dur * t = rain / 3600 / 1000 * (dur * 60) * t := by
    rw [inflow_volume_eq]
  rw [Option.map_some', this]

/-- Witness for C1 at the concrete 2×2 grid of the spec scenario. -/
theorem C1_water_level_formula_witness :
    cell? [[0, 1], [2, 3]] 0 1 = some 1 ∧
    cell? (water_level (inflow_volume 3600 60 * 1) [[0, 1], [2, 3]]) 0 1
      = some (max 0 (3600 / 3600 / 1000 * (60 * 60) * 1 - 1 + npMin [[0, 1], [2, 3]])) :=
  ⟨by norm_num [cell?], C1_water_level_formula 3600 60 1 [[0, 1], [2, 3]] 0 1 1 (by norm_num [cell?])⟩

/-- C4: every cell of the computed water-level grid is nonnegative, for any
inflow depth (hence for every animation frame). -/
theorem C4_water_level_nonneg (inflow : ℚ) (g : List (List ℚ)) (r c : ℕ)
    (v : ℚ) (hv : cell? (water_level inflow g) r c = some v) : 0 ≤ v := by
  rw [cell?_water_level] at hv
  cases he : cell? g r c with
  | none => rw [he] at hv; cases hv
  | some e =>
    rw [he, Option.map_some'] at hv
    have : v = max 0 (inflow - e + npMin g) := by
      exact (Option.some.injEq _ _).mp hv.symm
    rw [this]
    exact le_max_left _ _

/-- Witness for C4 on a concrete grid with a negative raw level. -/
theorem C4_water_level_nonneg_witness : (0 : ℚ) ≤ 0 :=
  C4_water_level_nonneg 1 [[0, 1], [2, 3]] 1 1 0
    (by norm_num [cell?, water_level, npMin])

/-- C2 counterexample: with intensity 3600 mm/h and duration 60 minutes the
code computes an inflow depth of 18/5 m (= 3.6 m), not 1 m as the claim
states: 3600 mm/h is 1/1000 m/s, and 60 minutes is 3600 s. -/
theorem C2_counterexample :
    inflow_volume 3600 60 = 18 / 5 ∧ ¬ inflow_volume 3600 60 = 1 := by
  norm_num [inflow_volume, rainfall_intensity, duration]

/-- C2 (amended): for elevation grid [[0,1],[2,3]], intensity 3600 mm/h and
duration 60 minutes, the computation yields inflowDepth = 18/5 m,
minElevation = 0, WaterLevelGrid = [[18/5,13/5],[8/5,3/5]] and a peak at
(row 0, col 0) with value 18/5. -/
theorem C2_concrete_scenario :
    inflow_volume 3600 60 = 18 / 5 ∧
    npMin [[0, 1], [2, 3]] = 0 ∧
    water_level (inflow_volume 3600 60) [[0, 1], [2, 3]]
      = [[18/5, 13/5], [8/5, 3/5]] ∧
    max_pos (water_level (inflow_volume 3600 60) [[0, 1], [2, 3]]) 2 = (0, 0) ∧
    max_water (water_level (inflow_volume 3600 60) [[0, 1], [2, 3]]) 2 = 18 / 5 := by
  norm_num [inflow_volume, rainfall_intensity, duration, npMin, water_level,
    max_pos, max_water, argmaxFlat, cell?, List.findIdx_cons]

/-- C5: for strictly positive inflow, a cell at which the elevation grid
attains its global minimum attains the maximum of the water-level grid:
its level is exactly `inflow`, and every other cell's level is ≤ `inflow`. -/
theorem C5_min_cell_attains_max (inflow : ℚ) (hpos : 0 < inflow)
    (g : List (List ℚ)) (r c : ℕ) (he : cell? g r c = some (npMin g))
    (r' c' : ℕ) (v' : ℚ)
    (hv' : cell? (water_level inflow g) r' c' = some v') :
    cell? (water_level inflow g) r c = some inflow ∧ v' ≤ inflow := by
  constructor
  · rw [cell?_water_level, he, Option.map_some']
    congr 1
    have harith : inflow - npMin g + npMin g = inflow := by ring
    rw [harith]
    exact max_eq_right hpos.le
  · rw [cell?_water_level] at hv'
    cases he' : cell? g r' c' with
    | none => rw [he'] at hv'; cases hv'
    | some e =>
      rw [he', Option.map_some'] at hv'
      have hv'eq : v' = max 0 (inflow - e + npMin g) :=
        ((Option.some.injEq _ _).mp hv').symm
      have hme : npMin g ≤ e := npMin_le (cell?_mem he')
      rw [hv'eq]
      exact max_le hpos.le (by linarith)

/-- Witness for C5 on the concrete 2×2 scenario grid. -/
theorem C5_min_cell_attains_max_witness :
    cell? (water_level 1 [[0, 1], [2, 3]]) 0 0 = some 1 ∧ (0 : ℚ) ≤ 1 :=
  C5_min_cell_attains_max 1 (by norm_num) [[0, 1], [2, 3]] 0 0
    (by norm_num [cell?, npMin]) 1 0 0
    (by norm_num [cell?, water_level, npMin])

/-- C6: for fixed nonnegative rainfall parameters and a fixed grid, the
water level at every cell is monotone in the time fraction: if t1 ≤ t2 then
the level for frame t1 is ≤ the level for frame t2 at every cell. -/
theorem C6_monotone_timeFraction (rain dur : ℚ) (hr : 0 ≤ rain) (hd : 0 ≤ dur)
    (t1 t2 : ℚ) (ht : t1 ≤ t2) (g : List (List ℚ)) (r c : ℕ) (v1 v2 : ℚ)
    (h1 : cell? (water_level (inflow_volume rain dur * t1) g) r c = some v1)
    (h2 : cell? (water_level (inflow_volume rain dur * t2) g) r c = some v2) :
    v1 ≤ v2 := by
  have hI : 0 ≤ inflow_volume rain dur := by
    rw [inflow_volume_eq]
    have ha : (0 : ℚ) ≤ rain / 3600 / 1000 :=
      div_nonneg (div_nonneg hr (by norm_num)) (by norm_num)
    exact mul_nonneg ha (mul_nonneg hd (by norm_num))
  rw [cell?_water_level] at h1 h2
  cases he : cell? g r c with
  | none => rw [he] at h1; cases h1
  | some e =>
    rw [he, Option.map_some'] at h1 h2
    have e1 : v1 = max 0 (inflow_volume rain dur * t1 - e + npMin g) :=
      ((Option.some.injEq _ _).mp h1).symm
    have e2 : v2 = max 0 (inflow_volume rain dur * t2 - e + npMin g) :=
      ((Option.some.injEq _ _).mp h2).symm
    have hmul : inflow_volume rain dur * t1 ≤ inflow_volume rain dur * t2 :=
      mul_le_mul_of_nonneg_left ht hI
    rw [e1, e2]
    exact max_le_max le_rfl (by linarith)

/-- Witness for C6: frame t = 0 versus t = 1 on the scenario grid. -/
theorem C6_monotone_timeFraction_witness : (0 : ℚ) ≤ 18 / 5 :=
  C6_monotone_timeFraction 3600 60 (by norm_num) (by norm_num) 0 1
    (by norm_num) [[0, 1], [2, 3]] 0 0 0 (18 / 5)
    (by norm_num [cell?, water_level, npMin, inflow_volume,
      rainfall_intensity, duration])
    (by norm_num [cell?, water_level, npMin, inflow_volume,
      rainfall_intensity, duration])

/-- Every water level is bounded by the inflow depth (when it is ≥ 0). -/
lemma water_level_le_inflow {inflow : ℚ} (hI : 0 ≤ inflow)
    {g : List (List ℚ)} :
    ∀ w ∈ (water_level inflow g).flatten, w ≤ inflow := by
  intro w hw
  rcases mem_flatten_water_level hw with ⟨e, he, rfl⟩
  have hme : npMin g ≤ e := npMin_le he
  exact max_le hI (by linarith)

/-- For nonnegative inflow the value `inflow` itself appears in the water
grid (at a minimum-elevation cell), so it is the maximum of the grid. -/
lemma max?_water_level {inflow : ℚ} (hI : 0 ≤ inflow)
    {g : List (List ℚ)} {C : ℕ} (hrect : Rect g C) (hC : 0 < C)
    (hg : g ≠ []) :
    (water_level inflow g).flatten.max? = some inflow := by
  have hmmem : npMin g ∈ g.flatten := npMin_mem (flatten_ne_nil hrect hC hg)
  have hmem0 := mem_flatten_water_level_of_mem inflow hmmem
  have hval : max 0 (inflow - npMin g + npMin g) = inflow := by
    have harith : inflow - npMin g + npMin g = inflow := by ring
    rw [harith]
    exact max_eq_right hI
  rw [hval] at hmem0
  exact max?_eq_some_of_ub hmem0 (water_level_le_inflow hI)

/-- C9: for nonnegative inflow, every cell of the water grid is bounded by
the inflow depth, and the reported peak value `max_water` equals the
inflow depth exactly, independent of the terrain. -/
theorem C9_peak_value_equals_inflow (inflow : ℚ) (hI : 0 ≤ inflow)
    (g : List (List ℚ)) (C : ℕ) (hrect : Rect g C) (hC : 0 < C)
    (hg : g ≠ []) :
    (∀ r c v, cell? (water_level inflow g) r c = some v → v ≤ inflow) ∧
    max_water (water_level inflow g) C = inflow := by
  have hub := water_level_le_inflow hI (g := g)
  refine ⟨fun r c v hv => hub v (cell?_mem hv), ?_⟩
  have hmax? := max?_water_level hI hrect hC hg
  set M := (water_level inflow g).flatten with hM
  set k := argmaxFlat M with hkdef
  have hex : ∃ x ∈ M, (fun x => decide (M.max? = some x)) x := by
    refine ⟨inflow, ?_, by simp [hmax?]⟩
    have anti := List.max?_mem (fun a b : ℚ => max_choice a b) hmax?
    exact anti
  have hk : k < M.length := List.findIdx_lt_length_of_exists hex
  have hkp : decide (M.max? = some (M.get ⟨k, hk⟩)) = true := by
    have := List.findIdx_getElem (p := fun x => decide (M.max? = some x))
      (w := hk)
    simpa using this
  have hkval : M[k] = inflow := by
    have h1 : M.max? = some (M.get ⟨k, hk⟩) := of_decide_eq_true hkp
    rw [hmax?] at h1
    have h3 := (Option.some.injEq _ _).mp h1
    simpa [List.get_eq_getElem] using h3.symm
  have hmw : max_water (water_level inflow g) C
      = (cell? (water_level inflow g) (k / C) (k % C)).getD 0 := rfl
  have hcell : cell? (water_level inflow g) (k / C) (k % C) = some inflow := by
    rw [← flatten_getElem? (water_level inflow g) C
      (rect_water_level hrect inflow) (k / C) (k % C) (Nat.mod_lt _ hC)]
    have hidx : k / C * C + k % C = k := by
      rw [Nat.mul_comm]
      exact Nat.div_add_mod k C
    rw [hidx, ← hM]
    rw [List.getElem?_eq_getElem hk]
    simp [hkval]
  rw [hmw, hcell]
  rfl

/-- Witness for C9 on the concrete 2×2 scenario grid. -/
theorem C9_peak_value_equals_inflow_witness :
    (∀ r c v, cell? (water_level 1 [[0, 1], [2, 3]]) r c = some v → v ≤ 1) ∧
    max_water (water_level 1 [[0, 1], [2, 3]]) 2 = 1 :=
  C9_peak_value_equals_inflow 1 (by norm_num) [[0, 1], [2, 3]] 2
    (by decide) (by norm_num) (by simp)

/-- C10: when several cells tie for the maximum water level, `max_pos` is
the tied cell with the smallest row-major index: the peak cell holds the
maximum value and its row-major index is ≤ that of every maximal cell. -/
theorem C10_peak_first_row_major (inflow : ℚ) (g : List (List ℚ)) (C : ℕ)
    (hrect : Rect g C) (hC : 0 < C) (r c : ℕ) (hc : c < C) (v : ℚ)
    (hv : cell? (water_level inflow g) r c = some v)
    (hmax : ∀ w ∈ (water_level inflow g).flatten, w ≤ v) :
    cell? (water_level inflow g) (max_pos (water_level inflow g) C).1
        (max_pos (water_level inflow g) C).2 = some v ∧
    (max_pos (water_level inflow g) C).1 * C
        + (max_pos (water_level inflow g) C).2 ≤ r * C + c := by
  have wrect := rect_water_level hrect inflow
  set M := (water_level inflow g).flatten with hM
  have hMj : M[r * C + c]? = some v := by
    rw [hM, flatten_getElem? (water_level inflow g) C wrect r c hc]
    exact hv
  have hvmem : v ∈ M := List.getElem?_mem hMj
  have hmax? : M.max? = some v := max?_eq_some_of_ub hvmem hmax
  set k := argmaxFlat M with hkdef
  have hex : ∃ x ∈ M, (fun x => decide (M.max? = some x)) x :=
    ⟨v, hvmem, by simp [hmax?]⟩
  have hk : k < M.length := List.findIdx_lt_length_of_exists hex
  have hkp : decide (M.max? = some (M.get ⟨k, hk⟩)) = true := by
    have := List.findIdx_getElem (p := fun x => decide (M.max? = some x))
      (w := hk)
    simpa using this
  have hkval : M[k] = v := by
    have h1 : M.max? = some (M.get ⟨k, hk⟩) := of_decide_eq_true hkp
    rw [hmax?] at h1
    have h3 := (Option.some.injEq _ _).mp h1
    simpa [List.get_eq_getElem] using h3.symm
  have hpos : max_pos (water_level inflow g) C = (k / C, k % C) := rfl
  have hidx : k / C * C + k % C = k := by
    rw [Nat.mul_comm]
    exact Nat.div_add_mod k C
  constructor
  · rw [hpos]
    rw [← flatten_getElem? (water_level inflow g) C wrect (k / C) (k % C)
      (Nat.mod_lt _ hC)]
    rw [hidx, ← hM, List.getElem?_eq_getElem hk]
    simp [hkval]
  · rw [hpos]
    simp only
    rw [hidx]
    by_contra hlt
    push_neg at hlt
    have hjlen : r * C + c < M.length := by
      have h8 : M.findIdx (fun x => decide (M.max? = some x)) ≤ M.length :=
        List.findIdx_le_length _
      rw [hkdef] at hlt
      unfold argmaxFlat at hlt
      omega
    have hfalse := List.not_of_lt_findIdx
      (show r * C + c < M.findIdx (fun x => decide (M.max? = some x)) by
        rw [hkdef] at hlt
        unfold argmaxFlat at hlt
        exact hlt)
    have hval : M[r * C + c] = v := by
      have h5 := List.getElem?_eq_getElem hjlen
      rw [hMj] at h5
      exact ((Option.some.injEq _ _).mp h5).symm
    rw [hval] at hfalse
    simp [hmax?] at hfalse

/-- Witness for C10: on the grid [[1,0],[1,0]] (inflow 1, flat elevation
grid would tie everywhere; here rows 0 and 1 tie) the peak is cell (0,0). -/
theorem C10_peak_first_row_major_witness :
    cell? (water_level 1 [[0, 1], [0, 1]])
        (max_pos (water_level 1 [[0, 1], [0, 1]]) 2).1
        (max_pos (water_level 1 [[0, 1], [0, 1]]) 2).2 = some 1 ∧
    (max_pos (water_level 1 [[0, 1], [0, 1]]) 2).1 * 2
        + (max_pos (water_level 1 [[0, 1], [0, 1]]) 2).2 ≤ 0 * 2 + 0 :=
  C10_peak_first_row_major 1 [[0, 1], [0, 1]] 2 (by decide) (by norm_num)
    0 0 (by norm_num) 1
    (by norm_num [cell?, water_level, npMin])
    (by norm_num [water_level, npMin])

/-- The function `cvRound` never rounds past an integer upper bound. -/
lemma cvRound_le {q : ℚ} {n : ℤ} (h : q ≤ (n : ℚ)) : cvRound q ≤ n := by
  have hfl : ⌊q⌋ ≤ n := by
    have h2 : ⌊q⌋ ≤ ⌊(n : ℚ)⌋ := Int.floor_mono h
    simpa using h2
  unfold cvRound
  by_cases h1 : Int.fract q < 1 / 2
  · simp only [h1, if_true]
    exact hfl
  · have hne : ⌊q⌋ ≠ n := by
      intro heq
      apply h1
      have hfr : Int.fract q = q - (n : ℚ) := by
        rw [Int.fract, heq]
      rw [hfr]
      linarith
    have hsucc : ⌊q⌋ + 1 ≤ n := by omega
    simp only [h1, if_false]
    by_cases h2 : 1 / 2 < Int.fract q
    · simp only [h2, if_true]
      exact hsucc
    · simp only [h2, if_false]
      by_cases h3 : ⌊q⌋ % 2 = 0
      · simp only [h3, if_true]
        exact hfl
      · simp only [h3, if_false]
        exact hsucc

lemma scale_mul_le (maxres rows cols : ℕ) (hr : 0 < rows) (hc : 0 < cols) :
    scale maxres rows cols * rows ≤ (maxres : ℚ) ∧
    scale maxres rows cols * cols ≤ (maxres : ℚ) := by
  have hrQ : (0 : ℚ) < rows := by exact_mod_cast hr
  have hcQ : (0 : ℚ) < cols := by exact_mod_cast hc
  constructor
  · have hle : scale maxres rows cols ≤ (maxres : ℚ) / rows :=
      min_le_left _ _
    calc scale maxres rows cols * rows ≤ (maxres : ℚ) / rows * rows :=
          mul_le_mul_of_nonneg_right hle hrQ.le
      _ = maxres := div_mul_cancel₀ _ (ne_of_gt hrQ)
  · have hle : scale maxres rows cols ≤ (maxres : ℚ) / cols :=
      min_le_right _ _
    calc scale maxres rows cols * cols ≤ (maxres : ℚ) / cols * cols :=
          mul_le_mul_of_nonneg_right hle hcQ.le
      _ = maxres := div_mul_cancel₀ _ (ne_of_gt hcQ)

/-- C3 (amended): after the optional downsampling of
src/uji_coba_banjir_TIF.py, both output dimensions are at most the
configured maximum (150 or 300, depending on the mode).  The original
claim's no-upsampling clause is false: grids smaller than the maximum are
scaled up (see the counterexample). -/
theorem C3_resize_dims_le_max (mode : Mode) (rows cols : ℕ)
    (hr : 0 < rows) (hc : 0 < cols) :
    (resizeDims mode rows cols).1 ≤ (MAX_RES mode : ℤ) ∧
    (resizeDims mode rows cols).2 ≤ (MAX_RES mode : ℤ) := by
  obtain ⟨h1, h2⟩ := scale_mul_le (MAX_RES mode) rows cols hr hc
  constructor
  · exact cvRound_le (by push_cast; exact_mod_cast h1)
  · exact cvRound_le (by push_cast; exact_mod_cast h2)

/-- Witness for C3 (amended) at a 2×2 grid in light mode. -/
theorem C3_resize_dims_le_max_witness :
    (resizeDims Mode.Ringan 2 2).1 ≤ (MAX_RES Mode.Ringan : ℤ) ∧
    (resizeDims Mode.Ringan 2 2).2 ≤ (MAX_RES Mode.Ringan : ℤ) :=
  C3_resize_dims_le_max Mode.Ringan 2 2 (by norm_num) (by norm_num)

/-- C3 counterexample: a 2×2 grid in light mode (maximum 150) is resized to
150×150, which exceeds the original dimension 2 — the code upsamples small
grids, contradicting the claim's no-upsampling clause. -/
theorem C3_counterexample :
    resizeDims Mode.Ringan 2 2 = (150, 150) ∧ ¬ ((150 : ℤ) ≤ 2) := by
  refine ⟨?_, by norm_num⟩
  norm_num [resizeDims, scale, MAX_RES, cvRound, Int.fract]

lemma length_linspace (a b : ℚ) (n : ℕ) : (linspace a b n).length = n := by
  unfold linspace
  split <;> simp

lemma linspace_first (a b : ℚ) (n : ℕ) (hn : 0 < n) :
    (linspace a b n)[0]? = some a := by
  unfold linspace
  by_cases h : n ≤ 1
  · have hone : n = 1 := by omega
    subst hone
    simp
  · simp only [h, if_false]
    rw [List.getElem?_map, List.getElem?_range (by omega)]
    simp

lemma linspace_last (a b : ℚ) (n : ℕ) (hn : 2 ≤ n) :
    (linspace a b n)[n - 1]? = some b := by
  unfold linspace
  have h : ¬ n ≤ 1 := by omega
  simp only [h, if_false]
  rw [List.getElem?_map, List.getElem?_range (by omega)]
  simp only [Option.map_some', Option.some.injEq]
  have hcast : ((n - 1 : ℕ) : ℚ) = (n : ℚ) - 1 := by
    rw [Nat.cast_sub (by omega : 1 ≤ n)]
    norm_num
  rw [hcast]
  have hge : (2 : ℚ) ≤ (n : ℚ) := by exact_mod_cast hn
  have hne : (n : ℚ) - 1 ≠ 0 := by
    intro hzero
    linarith
  rw [mul_comm, div_mul_cancel₀ _ hne]
  ring

lemma cell?_meshX (x y : List ℚ) (r c : ℕ) (hr : r < y.length) :
    cell? (meshX x y) r c = x[c]? := by
  unfold cell? meshX
  rw [List.getElem?_map, List.getElem?_eq_getElem hr]
  simp

lemma cell?_meshY (x y : List ℚ) (r c : ℕ) (hc : c < x.length) :
    cell? (meshY x y) r c = y[r]? := by
  unfold cell? meshY
  rw [List.getElem?_map]
  cases hy : y[r]? with
  | none => rfl
  | some v =>
    simp [List.getElem?_replicate, hc]

/-- C7 (amended): for grids with R ≥ 2 rows and C ≥ 2 columns and bounds
left=0, right=10, top=10, bottom=0, the coordinate meshes satisfy
X[r][0] = 0, X[r][C−1] = 10, Y[0][c] = 10 and Y[R−1][c] = 0 for every
in-range r and c.  For R = 1 or C = 1 the claim as stated fails, since
np.linspace collapses a single sample to the start bound. -/
theorem C7_coordinate_mapping (R C : ℕ) (hR : 2 ≤ R) (hC : 2 ≤ C)
    (r c : ℕ) (hr : r < R) (hc : c < C) :
    cell? (meshX (linspace 0 10 C) (linspace 10 0 R)) r 0 = some 0 ∧
    cell? (meshX (linspace 0 10 C) (linspace 10 0 R)) r (C - 1) = some 10 ∧
    cell? (meshY (linspace 0 10 C) (linspace 10 0 R)) 0 c = some 10 ∧
    cell? (meshY (linspace 0 10 C) (linspace 10 0 R)) (R - 1) c = some 0 := by
  have hylen : r < (linspace 10 0 R).length := by
    rw [length_linspace]; omega
  have hxlen : c < (linspace 0 10 C).length := by
    rw [length_linspace]; omega
  refine ⟨?_, ?_, ?_, ?_⟩
  · rw [cell?_meshX _ _ _ _ hylen, linspace_first 0 10 C (by omega)]
  · rw [cell?_meshX _ _ _ _ hylen, linspace_last 0 10 C hC]
  · rw [cell?_meshY _ _ _ _ hxlen, linspace_first 10 0 R (by omega)]
  · rw [cell?_meshY _ _ _ _ hxlen, linspace_last 10 0 R hR]

/-- Witness for C7 (amended) on a 2×2 grid. -/
theorem C7_coordinate_mapping_witness :
    cell? (meshX (linspace 0 10 2) (linspace 10 0 2)) 0 0 = some 0 ∧
    cell? (meshX (linspace 0 10 2) (linspace 10 0 2)) 0 (2 - 1) = some 10 ∧
    cell? (meshY (linspace 0 10 2) (linspace 10 0 2)) 0 0 = some 10 ∧
    cell? (meshY (linspace 0 10 2) (linspace 10 0 2)) (2 - 1) 0 = some 0 :=
  C7_coordinate_mapping 2 2 (by norm_num) (by norm_num) 0 0
    (by norm_num) (by norm_num)

/-- C7 counterexample: for a 1×1 grid (R = C = 1) the claim as stated fails:
the X-coordinate of column C−1 = 0 is 0 (np.linspace returns the single
sample `[start]`), not the right bound 10. -/
theorem C7_counterexample :
    cell? (meshX (linspace 0 10 1) (linspace 10 0 1)) 0 0 = some 0 ∧
    ¬ cell? (meshX (linspace 0 10 1) (linspace 10 0 1)) 0 0 = some 10 := by
  norm_num [cell?, meshX, linspace]

lemma cell?_map {α β : Type} (f : α → β) (g : List (List α)) (r c : ℕ) :
    cell? (g.map (List.map f)) r c = (cell? g r c).map f := by
  unfold cell?
  rw [List.getElem?_map]
  cases g[r]? with
  | none => rfl
  | some row => simp [List.getElem?_map]

lemma nanmin_isSome {g : List (List (Option ℚ))} {v : ℚ}
    (h : some v ∈ g.flatten) : ∃ m, nanmin g = some m := by
  unfold nanmin
  have hmem : v ∈ g.flatten.filterMap id :=
    List.mem_filterMap.mpr ⟨some v, h, rfl⟩
  cases hm : (g.flatten.filterMap id).min? with
  | none =>
    rw [List.min?_eq_none_iff] at hm
    rw [hm] at hmem
    cases hmem
  | some m => exact ⟨m, rfl⟩

/-- C8: if the loaded grid has at least one non-NaN value then
`np.nanmin` yields the minimum `m` of the non-NaN values, every NaN cell
of the cleaned grid is replaced (silently, with no error) by `m`, every
non-NaN cell is unchanged, and the cleaned grid contains no NaN cell. -/
theorem C8_nan_cleaning (g : List (List (Option ℚ))) (r0 c0 : ℕ) (v0 : ℚ)
    (hsome : cell? g r0 c0 = some (some v0)) :
    (∃ m, nanmin g = some m ∧ m ∈ g.flatten.filterMap id ∧
      (∀ w ∈ g.flatten.filterMap id, m ≤ w) ∧
      (∀ r c, cell? g r c = some none →
        cell? (nan_to_num g) r c = some (some m))) ∧
    (∀ r c v, cell? g r c = some (some v) →
      cell? (nan_to_num g) r c = some (some v)) ∧
    (∀ r c o, cell? (nan_to_num g) r c = some o → o.isSome) := by
  have hv0mem : some v0 ∈ g.flatten := cell?_mem hsome
  obtain ⟨m, hm⟩ := nanmin_isSome hv0mem
  have hm2 : (g.flatten.filterMap id).min? = some m := hm
  have hmmem : m ∈ g.flatten.filterMap id := by
    simpa using List.min?_mem (fun a b : ℚ => min_choice a b) hm2
  have hmle : ∀ w ∈ g.flatten.filterMap id, m ≤ w := by
    intro w hw
    have := (List.le_min?_iff (by intro a b c; exact le_min_iff) hm2
      (a := m)).mp le_rfl w hw
    simpa using this
  have key : ∀ r c, cell? (nan_to_num g) r c
      = (cell? g r c).map (fun o => match o with
        | none => nanmin g
        | some v => some v) := by
    intro r c
    exact cell?_map _ g r c
  refine ⟨⟨m, hm, hmmem, hmle, ?_⟩, ?_, ?_⟩
  · intro r c hnan
    rw [key, hnan, Option.map_some']
    simp [hm]
  · intro r c v hval
    rw [key, hval, Option.map_some']
  · intro r c o ho
    rw [key] at ho
    cases hcell : cell? g r c with
    | none => rw [hcell] at ho; cases ho
    | some o0 =>
      rw [hcell, Option.map_some'] at ho
      cases o0 with
      | none =>
        have ho2 : nanmin g = o := (Option.some.injEq _ _).mp ho
        rw [← ho2, hm]
        rfl
      | some v =>
        have ho2 : some v = o := (Option.some.injEq _ _).mp ho
        rw [← ho2]
        rfl

/-- Witness for C8 on a 2×2 grid with two NaN cells and minimum 2. -/
theorem C8_nan_cleaning_witness :
    (∃ m, nanmin ([[none, some 5], [some 2, none]] :
        List (List (Option ℚ))) = some m ∧
      m ∈ ([[none, some 5], [some 2, none]] :
        List (List (Option ℚ))).flatten.filterMap id ∧
      (∀ w ∈ ([[none, some 5], [some 2, none]] :
        List (List (Option ℚ))).flatten.filterMap id, m ≤ w) ∧
      (∀ r c, cell? ([[none, some 5], [some 2, none]] :
          List (List (Option ℚ))) r c = some none →
        cell? (nan_to_num ([[none, some 5], [some 2, none]] :
          List (List (Option ℚ)))) r c = some (some m))) ∧
    (∀ r c v, cell? ([[none, some 5], [some 2, none]] :
        List (List (Option ℚ))) r c = some (some v) →
      cell? (nan_to_num ([[none, some 5], [some 2, none]] :
        List (List (Option ℚ)))) r c = some (some v)) ∧
    (∀ r c o, cell? (nan_to_num ([[none, some 5], [some 2, none]] :
        List (List (Option ℚ)))) r c = some o → o.isSome) :=
  C8_nan_cleaning [[none, some 5], [some 2, none]] 0 1 5
    (by norm_num [cell?])

end FloodSim
